import Mathlib

/-!
Verification of the TileStache VecTiles PostGIS provider
(`TileStache/Goodies/VecTiles/server.py`).

Modelling conventions, used throughout:

* Python floats are modelled as exact rationals (`ℚ`).  The source's
  `tolerances` table multiplies every entry by the same factor `pi`; since
  `π` is irrational it cannot live in a computable `ℚ` development, so every
  quantity that is a rational multiple of `π` in the source (the entries of
  `tolerances` and values derived from them) is represented by its rational
  coefficient of `π`.  No claim compares such a quantity with a plain float
  numerically, so this is faithful for everything proved here.
* Python string interpolation of numbers (`'%.2f' % x`, `'%d' % x`) is
  modelled by explicit formatting functions producing decimal text.  The exact
  rounding of `%.2f` (which rounds on the underlying binary double) is
  approximated by round-half-up on the rational; no claim depends on the
  formatted digits, only on the fact that the output is non-empty numeric
  text.
* Exceptions (`IndexError`, `KeyError`, `ValueError`, the explicit
  `Exception` raised by `build_query`, `KnownUnknown`) are modelled with
  `Except String`.
* The database, the external encoder modules and the host framework's
  `getTile` are modelled as oracle function parameters.
-/

namespace VecTilesVerif

/-! ## String-occurrence counting machinery

`countOccL s pat` counts the positions of `s` at which the pattern `pat`
occurs as a contiguous substring (occurrences may overlap).  This is the
notion used to state "the query contains exactly one `ST_IsValid` filter".
-/

def countOccL (s pat : List Char) : ℕ :=
  match s with
  | [] => 0
  | c :: rest => (if pat <+: (c :: rest) then 1 else 0) + countOccL rest pat

def countOcc (s pat : String) : ℕ := countOccL s.data pat.data

/-- A pattern cannot occur across a non-empty block of characters disjoint
from the pattern's characters: no prefix match can start while fewer than
`pat.length` characters of `a` remain before the block `f`. -/
theorem not_prefix_across (pat : List Char) (f b : List Char)
    (hf : f ≠ []) (hdis : ∀ c ∈ f, c ∉ pat) :
    ∀ a : List Char, a.length < pat.length → ¬ pat <+: (a ++ (f ++ b)) := by
  intro a
  induction a generalizing pat with
  | nil =>
    intro hlen hpre
    cases pat with
    | nil => simp at hlen
    | cons p P =>
      cases f with
      | nil => exact hf rfl
      | cons x F =>
        rw [List.nil_append, List.cons_append, List.cons_prefix_cons] at hpre
        exact hdis x (by simp) (hpre.1 ▸ List.mem_cons_self p P)
  | cons y a ih =>
    intro hlen hpre
    cases pat with
    | nil => simp at hlen
    | cons p P =>
      rw [List.cons_append, List.cons_prefix_cons] at hpre
      exact ih P (fun c hc => fun hmem => hdis c hc (List.mem_cons_of_mem p hmem))
        (by simpa using hlen) hpre.2

/-- Skipping a block of characters disjoint from a non-empty pattern does not
change the occurrence count of the suffix. -/
theorem countOccL_skip (pat : List Char) (hp : pat ≠ [])
    (b : List Char) :
    ∀ f : List Char, (∀ c ∈ f, c ∉ pat) → countOccL (f ++ b) pat = countOccL b pat := by
  intro f
  induction f with
  | nil => intro _; rfl
  | cons x F ih =>
    intro hdis
    rw [List.cons_append, countOccL]
    have hnp : ¬ pat <+: (x :: (F ++ b)) := by
      intro hpre
      cases pat with
      | nil => exact hp rfl
      | cons p P =>
        rw [List.cons_prefix_cons] at hpre
        exact hdis x (by simp) (hpre.1 ▸ List.mem_cons_self p P)
    rw [if_neg hnp, ih (fun c hc => hdis c (List.mem_cons_of_mem x hc)), Nat.zero_add]

/-- A prefix shorter than the first block of an append is a prefix of the
first block alone. -/
theorem prefix_append_iff_of_le (pat a t : List Char) (hlen : pat.length ≤ a.length) :
    pat <+: (a ++ t) ↔ pat <+: a := by
  constructor
  · intro h
    have h2 : pat = (a ++ t).take pat.length := List.prefix_iff_eq_take.mp h
    rw [List.take_append_eq_append_take, Nat.sub_eq_zero_of_le hlen,
      List.take_zero, List.append_nil] at h2
    have h3 := List.take_prefix pat.length a
    rwa [← h2] at h3
  · intro h
    exact h.trans (List.prefix_append a t)

/-- Splitting lemma: occurrences of a non-empty pattern in `a ++ f ++ b`,
where `f` is a non-empty block of characters disjoint from the pattern,
are exactly the occurrences in `a` plus those in `b`. -/
theorem countOccL_split (pat : List Char) (hp : pat ≠ [])
    (f b : List Char) (hf : f ≠ []) (hdis : ∀ c ∈ f, c ∉ pat) :
    ∀ a : List Char, countOccL (a ++ (f ++ b)) pat = countOccL a pat + countOccL b pat := by
  intro a
  induction a with
  | nil =>
    rw [List.nil_append, countOccL_skip pat hp b f hdis,
      show countOccL [] pat = 0 from rfl, Nat.zero_add]
  | cons x A ih =>
    have hiff : (pat <+: (x :: (A ++ (f ++ b)))) ↔ pat <+: (x :: A) := by
      rcases Nat.lt_or_ge (x :: A).length pat.length with hlt | hge
      · constructor
        · intro hpre
          refine absurd ?_ (not_prefix_across pat f b hf hdis (x :: A) hlt)
          rwa [List.cons_append]
        · intro hpre
          exact absurd hpre.length_le (by omega)
      · rw [show x :: (A ++ (f ++ b)) = (x :: A) ++ (f ++ b) from rfl]
        exact prefix_append_iff_of_le pat (x :: A) (f ++ b) hge
    rw [List.cons_append, countOccL, ih,
      show countOccL (x :: A) pat
        = (if pat <+: (x :: A) then 1 else 0) + countOccL A pat from rfl,
      if_congr hiff rfl rfl]
    omega

/-! ## Decimal formatting of numbers

Models Python's `'%.2f' % x` and `'%d' % x` interpolation.  All output
characters come from `numericChars`, which is what the substring-counting
arguments rely on. -/

def numericChars : List Char := ['0', '1', '2', '3', '4', '5', '6', '7', '8', '9', '.', '-']

def digitChar (d : ℕ) : Char := Char.ofNat (48 + d)

def natDigitsAux : ℕ → ℕ → List Char → List Char
  | 0, _, acc => acc
  | fuel + 1, n, acc =>
    if n < 10 then digitChar n :: acc
    else natDigitsAux fuel (n / 10) (digitChar (n % 10) :: acc)

def natDigits (n : ℕ) : List Char := natDigitsAux (n + 1) n []

theorem digitChar_mem (d : ℕ) (hd : d < 10) : digitChar d ∈ numericChars := by
  interval_cases d <;> decide

theorem natDigitsAux_chars (fuel n : ℕ) (acc : List Char)
    (hacc : ∀ c ∈ acc, c ∈ numericChars) :
    ∀ c ∈ natDigitsAux fuel n acc, c ∈ numericChars := by
  induction fuel generalizing n acc with
  | zero => exact hacc
  | succ fuel ih =>
    rw [natDigitsAux]
    split
    · intro c hc
      rcases List.mem_cons.mp hc with h | h
      · exact h ▸ digitChar_mem n (by omega)
      · exact hacc c h
    · refine ih (n / 10) (digitChar (n % 10) :: acc) ?_
      intro c hc
      rcases List.mem_cons.mp hc with h | h
      · exact h ▸ digitChar_mem (n % 10) (Nat.mod_lt n (by omega))
      · exact hacc c h

theorem natDigitsAux_ne_nil (fuel n : ℕ) (acc : List Char) (hacc : acc ≠ []) :
    natDigitsAux fuel n acc ≠ [] := by
  induction fuel generalizing n acc with
  | zero => exact hacc
  | succ fuel ih =>
    rw [natDigitsAux]
    split
    · simp
    · exact ih (n / 10) (digitChar (n % 10) :: acc) (by simp)

theorem natDigits_chars (n : ℕ) : ∀ c ∈ natDigits n, c ∈ numericChars :=
  natDigitsAux_chars (n + 1) n [] (by simp)

theorem natDigits_ne_nil (n : ℕ) : natDigits n ≠ [] := by
  rw [natDigits, natDigitsAux]
  split
  · simp
  · exact natDigitsAux_ne_nil n (n / 10) (digitChar (n % 10) :: []) (by simp)

/-- Two fractional digits, zero-padded on the left. -/
def padFrac (m : ℕ) : List Char :=
  if m < 10 then '0' :: natDigits m else natDigits m

theorem padFrac_chars (m : ℕ) : ∀ c ∈ padFrac m, c ∈ numericChars := by
  intro c hc
  rw [padFrac] at hc
  split at hc
  · rcases List.mem_cons.mp hc with h | h
    · simp [h, numericChars]
    · exact natDigits_chars _ c h
  · exact natDigits_chars _ c hc

/-- Model of Python's `'%.2f' % x` formatting: sign, integer part, a dot and
two fractional digits.  Rounding half-up approximates the binary rounding of
the float (no claim depends on the digits themselves). -/
def fmtF (x : ℚ) : String :=
  String.mk ((if x < 0 then ['-'] else []) ++
    natDigits ((⌊|x| * 100 + 1/2⌋).toNat / 100) ++ ['.'] ++
    padFrac ((⌊|x| * 100 + 1/2⌋).toNat % 100))

/-- Model of Python's `'%d' % x` formatting. -/
def fmtD (z : ℤ) : String :=
  String.mk ((if z < 0 then ['-'] else []) ++ natDigits z.natAbs)

theorem fmtF_chars (x : ℚ) : ∀ c ∈ (fmtF x).data, c ∈ numericChars := by
  intro c hc
  have hc2 : c ∈ (if x < 0 then ['-'] else []) ++
      natDigits ((⌊|x| * 100 + 1/2⌋).toNat / 100) ++ ['.'] ++
      padFrac ((⌊|x| * 100 + 1/2⌋).toNat % 100) := hc
  rcases List.mem_append.mp hc2 with h | h
  · rcases List.mem_append.mp h with h2 | h2
    · rcases List.mem_append.mp h2 with h3 | h3
      · split at h3 <;> simp_all [numericChars]
      · exact natDigits_chars _ c h3
    · simp_all [numericChars]
  · exact padFrac_chars _ c h

theorem fmtD_chars (z : ℤ) : ∀ c ∈ (fmtD z).data, c ∈ numericChars := by
  intro c hc
  have hc2 : c ∈ (if z < 0 then ['-'] else []) ++ natDigits z.natAbs := hc
  rcases List.mem_append.mp hc2 with h | h
  · split at h <;> simp_all [numericChars]
  · exact natDigits_chars _ c h

theorem fmtF_ne_nil (x : ℚ) : (fmtF x).data ≠ [] := by
  intro h
  have h2 : (if x < 0 then ['-'] else []) ++
      natDigits ((⌊|x| * 100 + 1/2⌋).toNat / 100) ++ ['.'] ++
      padFrac ((⌊|x| * 100 + 1/2⌋).toNat % 100) = [] := h
  rcases List.append_eq_nil.mp h2 with ⟨-, h3⟩
  rw [padFrac] at h3
  split at h3
  · simp at h3
  · exact natDigits_ne_nil _ h3

theorem fmtD_ne_nil (z : ℤ) : (fmtD z).data ≠ [] := by
  intro h
  have h2 : (if z < 0 then ['-'] else []) ++ natDigits z.natAbs = [] := h
  exact natDigits_ne_nil _ (List.append_eq_nil.mp h2).2

/-! ## Interpolation segments

A query string in the source is produced by `%`-interpolation of numbers into
string literals.  We make that structure explicit: a `Seg.lit` is literal
text, a `Seg.num` is a float interpolated with `%.2f`, a `Seg.int` an integer
interpolated with `%d`.  `renderWith` concatenates the pieces using given
formatters and `render` uses the `%.2f` / `%d` models above. -/

inductive Seg where
  | lit : String → Seg
  | num : ℚ → Seg
  | int : ℤ → Seg

def renderWith (f : ℚ → String) (g : ℤ → String) : List Seg → String
  | [] => ""
  | Seg.lit s :: rest => s ++ renderWith f g rest
  | Seg.num q :: rest => f q ++ renderWith f g rest
  | Seg.int z :: rest => g z ++ renderWith f g rest

def render (segs : List Seg) : String := renderWith fmtF fmtD segs

/-- Replacing every interpolated number by the placeholder digit `0` does not
change the number of occurrences of a pattern that contains no numeric
characters: an occurrence can never overlap interpolated text, which always
consists of at least one numeric character. -/
theorem countOccL_renderWith_zero (pat : List Char) (hp : pat ≠ [])
    (hdisp : ∀ c ∈ pat, c ∉ numericChars) :
    ∀ (segs : List Seg) (pre : List Char),
      countOccL (pre ++ (renderWith fmtF fmtD segs).data) pat
        = countOccL (pre ++ (renderWith (fun _ => "0") (fun _ => "0") segs).data) pat := by
  intro segs
  induction segs with
  | nil => intro pre; rfl
  | cons s rest ih =>
    intro pre
    have hzero : ∀ c ∈ ("0" : String).data, c ∉ pat := by
      intro c hc hmem
      have hc0 : c = '0' := by simpa using hc
      exact hdisp c hmem (by rw [hc0]; decide)
    have ihnil : countOccL ((renderWith fmtF fmtD rest).data) pat
        = countOccL ((renderWith (fun _ => "0") (fun _ => "0") rest).data) pat := by
      have h := ih []
      rwa [List.nil_append, List.nil_append] at h
    cases s with
    | lit t =>
      show countOccL (pre ++ (t.data ++ (renderWith fmtF fmtD rest).data)) pat
        = countOccL (pre ++ (t.data ++ (renderWith (fun _ => "0") (fun _ => "0") rest).data)) pat
      rw [← List.append_assoc, ← List.append_assoc]
      exact ih (pre ++ t.data)
    | num q =>
      show countOccL (pre ++ ((fmtF q).data ++ (renderWith fmtF fmtD rest).data)) pat
        = countOccL (pre ++ (("0" : String).data
            ++ (renderWith (fun _ => "0") (fun _ => "0") rest).data)) pat
      rw [countOccL_split pat hp (fmtF q).data _ (fmtF_ne_nil q)
          (fun c hc hmem => hdisp c hmem (fmtF_chars q c hc)) pre,
        countOccL_split pat hp ("0" : String).data _ (by decide)
          (fun c hc => hzero c hc) pre, ihnil]
    | int z =>
      show countOccL (pre ++ ((fmtD z).data ++ (renderWith fmtF fmtD rest).data)) pat
        = countOccL (pre ++ (("0" : String).data
            ++ (renderWith (fun _ => "0") (fun _ => "0") rest).data)) pat
      rw [countOccL_split pat hp (fmtD z).data _ (fmtD_ne_nil z)
          (fun c hc hmem => hdisp c hmem (fmtD_chars z c hc)) pre,
        countOccL_split pat hp ("0" : String).data _ (by decide)
          (fun c hc => hzero c hc) pre, ihnil]

/-! ## The query synthesizer `build_query`

Embedding of `build_query(srid, subquery, subcolumns, bounds, tolerance,
is_geo, is_clipped, padding=0, scale=None)` (server.py lines 441-480).
A Python bounds 4-tuple is the structure `B4`; the Python `set` of column
names is a `List String`; the `raise Exception` when `__geometry__` is
missing is the `none` result.  Query text is produced through interpolation
segments (`Seg`), rendered with the `%.2f`/`%d` models.

Python float truthiness: `if scale:` is false for `None` and for `0.0`;
the model tests `scale` against `none` and `0` accordingly. -/

structure B4 where
  xmin : ℚ
  ymin : ℚ
  xmax : ℚ
  ymax : ℚ
deriving DecidableEq

/-- The first assignment to `bbox`:
`'ST_MakeBox2D(ST_MakePoint(%.2f, %.2f), ST_MakePoint(%.2f, %.2f))'`
interpolated with the padded bounds. -/
def bboxRawSegs (bounds : B4) (padding : ℚ) : List Seg :=
  [Seg.lit "ST_MakeBox2D(ST_MakePoint(", Seg.num (bounds.xmin - padding),
   Seg.lit ", ", Seg.num (bounds.ymin - padding),
   Seg.lit "), ST_MakePoint(", Seg.num (bounds.xmax + padding),
   Seg.lit ", ", Seg.num (bounds.ymax + padding), Seg.lit "))"]

/-- The second assignment to `bbox`: `'ST_SetSRID(%s, %d)' % (bbox, srid)`. -/
def bboxSegs (srid : ℤ) (bounds : B4) (padding : ℚ) : List Seg :=
  [Seg.lit "ST_SetSRID("] ++ bboxRawSegs bounds padding ++
    [Seg.lit ", ", Seg.int srid, Seg.lit ")"]

/-- The successive re-assignments of `geom` in `build_query`: start from
`'q.__geometry__'`, clip, simplify, reproject and scale, each wrapping the
previous expression, in source order. -/
def geomSegs (srid : ℤ) (bounds : B4) (tolerance : Option ℚ)
    (is_geo is_clipped : Bool) (padding : ℚ) (scale : Option ℚ) : List Seg :=
  let bbox := bboxSegs srid bounds padding
  let geom := [Seg.lit "q.__geometry__"]
  let geom := match is_clipped with
    | true => [Seg.lit "ST_Intersection("] ++ geom ++ [Seg.lit ", "] ++ bbox ++ [Seg.lit ")"]
    | false => geom
  let geom := match tolerance with
    | some t => [Seg.lit "ST_SimplifyPreserveTopology("] ++ geom ++
        [Seg.lit ", ", Seg.num t, Seg.lit ")"]
    | none => geom
  let geom := match is_geo with
    | true => [Seg.lit "ST_Transform("] ++ geom ++ [Seg.lit ", 4326)"]
    | false => geom
  let geom := match scale with
    | some s =>
      if s = 0 then geom
      else
        -- scale applies to the un-padded bounds (source line 459)
        [Seg.lit "ST_TransScale("] ++ geom ++
        [Seg.lit ", ", Seg.num (-bounds.xmin), Seg.lit ", ", Seg.num (-bounds.ymin),
         Seg.lit ", (", Seg.num s, Seg.lit " / (", Seg.num bounds.xmax, Seg.lit " - ",
         Seg.num bounds.xmin, Seg.lit ")), (", Seg.num s, Seg.lit " / (",
         Seg.num bounds.ymax, Seg.lit " - ", Seg.num bounds.ymin, Seg.lit ")))"]
    | none => geom
  geom

/-- Fuel-based model of Python's `str.replace(pat, rep)` where the
replacement is an interpolation-segment list; the fuel is the string length,
which is always sufficient. -/
def splitRepAux (pat : List Char) (rep : List Seg) : ℕ → List Char → List Char → List Seg
  | _, acc, [] => [Seg.lit (String.mk acc.reverse)]
  | 0, acc, s => [Seg.lit (String.mk (acc.reverse ++ s))]
  | fuel + 1, acc, c :: rest =>
    if pat ≠ [] ∧ pat <+: (c :: rest) then
      Seg.lit (String.mk acc.reverse) ::
        (rep ++ splitRepAux pat rep fuel [] (List.drop pat.length (c :: rest)))
    else
      splitRepAux pat rep fuel (c :: acc) rest

/-- `subquery.replace('!bbox!', bbox)` at segment level. -/
def strReplace (s : String) (pat : String) (rep : List Seg) : List Seg :=
  splitRepAux pat.data rep s.data.length [] s.data

/-- Embedding of `build_query`, producing the interpolation segments of the
returned query string; `none` models the `raise Exception` when the column
set has no `__geometry__` column. -/
def build_query_segs (srid : ℤ) (subquery : String) (subcolumns : List String)
    (bounds : B4) (tolerance : Option ℚ) (is_geo is_clipped : Bool)
    (padding : ℚ) (scale : Option ℚ) : Option (List Seg) :=
  let bbox := bboxSegs srid bounds padding
  let geom := geomSegs srid bounds tolerance is_geo is_clipped padding scale
  let subq := strReplace subquery "!bbox!" bbox
  let columns := (subcolumns.filter (fun c => c ≠ "__geometry__")).map
    (fun c => "q.\"" ++ c ++ "\"")
  if "__geometry__" ∉ subcolumns then none
  else
    let columns := if "__id__" ∉ subcolumns then
        columns ++ ["Substr(MD5(ST_AsBinary(q.__geometry__)), 1, 10) AS __id__"]
      else columns
    some ([Seg.lit "SELECT ", Seg.lit (String.intercalate ", " columns),
           Seg.lit ",\n       ST_AsBinary("] ++ geom ++
          [Seg.lit ") AS __geometry__\n       FROM (\n         "] ++ subq ++
          [Seg.lit "\n         ) AS q\n       WHERE ST_IsValid(q.__geometry__)\n         AND q.__geometry__ && "] ++
          bbox ++
          [Seg.lit "\n         AND ST_Intersects(q.__geometry__, "] ++ bbox ++ [Seg.lit ")"])

/-- The query string returned by `build_query` (`none` = raised exception). -/
def build_query (srid : ℤ) (subquery : String) (subcolumns : List String)
    (bounds : B4) (tolerance : Option ℚ) (is_geo is_clipped : Bool)
    (padding : ℚ) (scale : Option ℚ) : Option String :=
  (build_query_segs srid subquery subcolumns bounds tolerance is_geo is_clipped
    padding scale).map render

theorem strData_append (a b : String) : (a ++ b).data = a.data ++ b.data := by
  cases a; cases b; rfl

theorem strAppend_assoc (a b c : String) : a ++ b ++ c = a ++ (b ++ c) := by
  cases a; cases b; cases c
  show String.mk _ = String.mk _
  rw [List.append_assoc]

theorem renderWith_append (f : ℚ → String) (g : ℤ → String) :
    ∀ a b : List Seg, renderWith f g (a ++ b) = renderWith f g a ++ renderWith f g b := by
  intro a b
  induction a with
  | nil =>
    show renderWith f g b = "" ++ renderWith f g b
    cases h : renderWith f g b
    rfl
  | cons s rest ih =>
    cases s <;>
      (show _ ++ renderWith f g (rest ++ b) = _ ++ renderWith f g rest ++ renderWith f g b
       rw [ih, strAppend_assoc])

/-- Occurrence counting through `render` only depends on the literal skeleton
of the segments. -/
theorem countOcc_render_zero (pat : String) (hp : pat.data ≠ [])
    (hdisp : ∀ c ∈ pat.data, c ∉ numericChars) (segs : List Seg) :
    countOcc (render segs) pat
      = countOccL ((renderWith (fun _ => "0") (fun _ => "0") segs).data) pat.data := by
  have h := countOccL_renderWith_zero pat.data hp hdisp segs []
  rwa [List.nil_append, List.nil_append] at h

/-- The literal skeleton of a segment list: literal text kept, every
interpolated number forgotten. -/
def skel : List Seg → List (Option String) :=
  List.map (fun s => match s with
    | Seg.lit t => some t
    | Seg.num _ => none
    | Seg.int _ => none)

/-- Rendering of a skeleton, with the placeholder digit `0` for the
forgotten numbers. -/
def renderSkel : List (Option String) → String
  | [] => ""
  | some s :: rest => s ++ renderSkel rest
  | none :: rest => "0" ++ renderSkel rest

theorem renderWith_zero_eq_skel :
    ∀ segs : List Seg,
      renderWith (fun _ => "0") (fun _ => "0") segs = renderSkel (skel segs) := by
  intro segs
  induction segs with
  | nil => rfl
  | cons s rest ih =>
    cases s with
    | lit t =>
      show t ++ renderWith _ _ rest = t ++ renderSkel (skel rest)
      rw [ih]
    | num q =>
      show "0" ++ renderWith _ _ rest = "0" ++ renderSkel (skel rest)
      rw [ih]
    | int z =>
      show "0" ++ renderWith _ _ rest = "0" ++ renderSkel (skel rest)
      rw [ih]

/-- Occurrence counting in a rendered query reduces to a computation on the
literal skeleton. -/
theorem countOcc_render_skel (pat : String) (hp : pat.data ≠ [])
    (hdisp : ∀ c ∈ pat.data, c ∉ numericChars) (segs : List Seg) :
    countOcc (render segs) pat = countOccL ((renderSkel (skel segs)).data) pat.data := by
  rw [countOcc_render_zero pat hp hdisp segs, renderWith_zero_eq_skel]

/-- A concrete representative subquery and its column set, used to state the
claims about `build_query` (the claims quantify over clip, tolerance,
padding and scale; the user-supplied query template is external input). -/
def subQ0 : String := "SELECT way AS __geometry__, name FROM planet_osm_line"

def cols0 : List String := ["__geometry__", "name"]

/-- On the concrete subquery `subQ0`, which contains no `!bbox!` token, the
replacement step is the identity. -/
theorem strReplace_subQ0 (rep : List Seg) :
    strReplace subQ0 "!bbox!" rep = [Seg.lit subQ0] := rfl

/-- When scale is truthy (non-`None`, non-zero), the last re-assignment wraps
the scale-free geometry expression in `ST_TransScale` with the un-padded
bounds. -/
theorem geomSegs_scale_truthy (srid : ℤ) (bounds : B4) (tolerance : Option ℚ)
    (is_geo is_clipped : Bool) (padding : ℚ) (s : ℚ) (hs : s ≠ 0) :
    geomSegs srid bounds tolerance is_geo is_clipped padding (some s) =
      [Seg.lit "ST_TransScale("] ++
        geomSegs srid bounds tolerance is_geo is_clipped padding none ++
        [Seg.lit ", ", Seg.num (-bounds.xmin), Seg.lit ", ", Seg.num (-bounds.ymin),
         Seg.lit ", (", Seg.num s, Seg.lit " / (", Seg.num bounds.xmax, Seg.lit " - ",
         Seg.num bounds.xmin, Seg.lit ")), (", Seg.num s, Seg.lit " / (",
         Seg.num bounds.ymax, Seg.lit " - ", Seg.num bounds.ymin, Seg.lit ")))"] := by
  rw [geomSegs.eq_def, geomSegs.eq_def]
  simp [hs]

/-- Python float truthiness: `scale = 0.0` behaves exactly like `scale = None`. -/
theorem geomSegs_scale_zero (srid : ℤ) (bounds : B4) (tolerance : Option ℚ)
    (is_geo is_clipped : Bool) (padding : ℚ) :
    geomSegs srid bounds tolerance is_geo is_clipped padding (some 0) =
      geomSegs srid bounds tolerance is_geo is_clipped padding none := by
  rw [geomSegs.eq_def, geomSegs.eq_def]
  simp

set_option maxRecDepth 100000

/-- C4: for every combination of clip flag, tolerance (present or absent),
padding and scale (and either projection target), the query string returned
by `build_query` contains exactly one `ST_IsValid` validity filter and
exactly one `ST_Intersects` spatial-intersection filter against the bbox
(the accompanying `&&` operator is the bounding-box overlap index hint, not
the intersection predicate). -/
theorem C4_build_query_unique_filters (srid : ℤ) (bounds : B4)
    (tolerance : Option ℚ) (is_geo is_clipped : Bool) (padding : ℚ)
    (scale : Option ℚ) :
    ∃ q, build_query srid subQ0 cols0 bounds tolerance is_geo is_clipped
        padding scale = some q
      ∧ countOcc q "ST_IsValid(" = 1 ∧ countOcc q "ST_Intersects(" = 1 := by
  rcases scale with _ | s
  · rcases tolerance with _ | t <;> cases is_geo <;> cases is_clipped <;>
      (refine ⟨_, rfl, ?_, ?_⟩ <;>
        (first
          | rw [countOcc_render_skel "ST_IsValid(" (by decide) (by decide)]
          | rw [countOcc_render_skel "ST_Intersects(" (by decide) (by decide)]) <;>
        (rw [strReplace_subQ0]
         simp only [geomSegs.eq_def, bboxSegs, bboxRawSegs, skel, List.map_append,
           List.map_cons, List.map_nil]
         decide))
  · rcases eq_or_ne s 0 with hs | hs
    · subst hs
      rcases tolerance with _ | t <;> cases is_geo <;> cases is_clipped <;>
        (refine ⟨_, rfl, ?_, ?_⟩ <;>
          (first
            | rw [countOcc_render_skel "ST_IsValid(" (by decide) (by decide)]
            | rw [countOcc_render_skel "ST_Intersects(" (by decide) (by decide)]) <;>
          (rw [strReplace_subQ0, geomSegs_scale_zero]
           simp only [geomSegs.eq_def, bboxSegs, bboxRawSegs, skel, List.map_append,
             List.map_cons, List.map_nil]
           decide))
    · rcases tolerance with _ | t <;> cases is_geo <;> cases is_clipped <;>
        (refine ⟨_, rfl, ?_, ?_⟩ <;>
          (first
            | rw [countOcc_render_skel "ST_IsValid(" (by decide) (by decide)]
            | rw [countOcc_render_skel "ST_Intersects(" (by decide) (by decide)]) <;>
          (rw [strReplace_subQ0, geomSegs_scale_truthy _ _ _ _ _ _ _ hs]
           simp only [geomSegs.eq_def, bboxSegs, bboxRawSegs, skel, List.map_append,
             List.map_cons, List.map_nil]
           decide))

/-- Modelled from the spec: the affine map applied by the `ST_TransScale`
step to an x-coordinate (translate by `dx`, then scale by `xfac`); the
PostGIS implementation of `ST_TransScale` is external to this repository.
The y-axis map is identical in form. -/
def transScaleX (dx xfac x : ℚ) : ℚ := (x + dx) * xfac

/-- C5: the geometry expression is wrapped, in this fixed order: clip
intersection (innermost), topology-preserving simplification to the
tolerance, reprojection, affine scale (outermost).  The `ST_TransScale`
step receives the original, un-padded bounds (`bounds.xmin`/`bounds.xmax`,
not `bounds.xmin - padding`), so it maps the un-padded bounds to
`[0, scale]` on each axis, and a point in the padding region (left of
`xmin`) maps to a negative coordinate, outside `[0, scale]`. -/
theorem C5_geom_wrap_order_and_scale (srid : ℤ) (b : B4) (t s p x : ℚ)
    (hs : 0 < s) (hb : b.xmin < b.xmax) (hx : x < b.xmin) :
    (geomSegs srid b (some t) true true p (some s) =
      [Seg.lit "ST_TransScale("] ++
        ([Seg.lit "ST_Transform("] ++
          ([Seg.lit "ST_SimplifyPreserveTopology("] ++
            ([Seg.lit "ST_Intersection("] ++ [Seg.lit "q.__geometry__"] ++
              [Seg.lit ", "] ++ bboxSegs srid b p ++ [Seg.lit ")"]) ++
            [Seg.lit ", ", Seg.num t, Seg.lit ")"]) ++
          [Seg.lit ", 4326)"]) ++
        [Seg.lit ", ", Seg.num (-b.xmin), Seg.lit ", ", Seg.num (-b.ymin),
         Seg.lit ", (", Seg.num s, Seg.lit " / (", Seg.num b.xmax, Seg.lit " - ",
         Seg.num b.xmin, Seg.lit ")), (", Seg.num s, Seg.lit " / (",
         Seg.num b.ymax, Seg.lit " - ", Seg.num b.ymin, Seg.lit ")))"])
    ∧ transScaleX (-b.xmin) (s / (b.xmax - b.xmin)) b.xmin = 0
    ∧ transScaleX (-b.xmin) (s / (b.xmax - b.xmin)) b.xmax = s
    ∧ transScaleX (-b.xmin) (s / (b.xmax - b.xmin)) x < 0 := by
  have hd : b.xmax - b.xmin ≠ 0 := sub_ne_zero.mpr (ne_of_gt hb)
  refine ⟨?_, ?_, ?_, ?_⟩
  · rw [geomSegs_scale_truthy _ _ _ _ _ _ _ (ne_of_gt hs)]
    rfl
  · show (b.xmin + -b.xmin) * (s / (b.xmax - b.xmin)) = 0
    rw [add_neg_cancel, zero_mul]
  · show (b.xmax + -b.xmin) * (s / (b.xmax - b.xmin)) = s
    rw [← sub_eq_add_neg, mul_comm, div_mul_cancel₀ s hd]
  · show (x + -b.xmin) * (s / (b.xmax - b.xmin)) < 0
    have h1 : x + -b.xmin < 0 := by linarith
    have h2 : 0 < s / (b.xmax - b.xmin) := div_pos hs (by linarith)
    exact mul_neg_of_neg_of_pos h1 h2

/-- Witness for C5 at a concrete input. -/
theorem C5_geom_wrap_order_and_scale_witness :
    (geomSegs 900913 ⟨0, 0, 10, 10⟩ (some 1) true true 2 (some 4096) =
      [Seg.lit "ST_TransScale("] ++
        ([Seg.lit "ST_Transform("] ++
          ([Seg.lit "ST_SimplifyPreserveTopology("] ++
            ([Seg.lit "ST_Intersection("] ++ [Seg.lit "q.__geometry__"] ++
              [Seg.lit ", "] ++ bboxSegs 900913 ⟨0, 0, 10, 10⟩ 2 ++ [Seg.lit ")"]) ++
            [Seg.lit ", ", Seg.num 1, Seg.lit ")"]) ++
          [Seg.lit ", 4326)"]) ++
        [Seg.lit ", ", Seg.num (-(0 : ℚ)), Seg.lit ", ", Seg.num (-(0 : ℚ)),
         Seg.lit ", (", Seg.num 4096, Seg.lit " / (", Seg.num 10, Seg.lit " - ",
         Seg.num 0, Seg.lit ")), (", Seg.num 4096, Seg.lit " / (",
         Seg.num 10, Seg.lit " - ", Seg.num 0, Seg.lit ")))"])
    ∧ transScaleX (-(0 : ℚ)) (4096 / (10 - 0)) 0 = 0
    ∧ transScaleX (-(0 : ℚ)) (4096 / (10 - 0)) 10 = 4096
    ∧ transScaleX (-(0 : ℚ)) (4096 / (10 - 0)) (-3) < 0 :=
  C5_geom_wrap_order_and_scale 900913 ⟨0, 0, 10, 10⟩ 1 4096 2 (-3)
    (by norm_num) (by norm_num) (by norm_num)

/-! ## The tolerances table, the Provider and its Response

Embedding of `tolerances` (server.py line 33), `Provider.renderTile`
(lines 142-162) and `Response.__init__` (lines 255-271).  The `do`-free
match cascades mirror Python's evaluation order of the corresponding
statements. -/

/-- Embedding of
`tolerances = [6378137 * 2 * pi / (2 ** (zoom + 8)) for zoom in range(22)]`
(server.py line 33), stored as the rational coefficient of `π` (see the
file header). -/
def tolerances : List ℚ := (List.range 22).map (fun zoom => 6378137 * 2 / 2 ^ (zoom + 8))

/-- The constant `6378137` of the `tolerances` formula; the spec names it
`EARTH_CIRCUMFERENCE` (numerically it is the WGS84 equatorial radius, and
only the product with `2π` matters). -/
def EARTH_CONSTANT : ℚ := 6378137

/-- The spec formula
`base_unit_distance(zoom) = EARTH_CIRCUMFERENCE * 2π / (2^(zoom+8))`,
as its coefficient of `π`. -/
def base_unit_distance (zoom : ℕ) : ℚ := EARTH_CONSTANT * 2 / 2 ^ (zoom + 8)

structure ProviderCfg where
  queries : List (Option String)
  clip : Bool
  srid : ℤ
  simplify : ℚ
  simplify_until : ℕ

structure Coord where
  zoom : ℕ
  column : ℤ
  row : ℤ
deriving DecidableEq

/-- `self.queries[coord.zoom]` with the `except IndexError: queries[-1]`
fallback (server.py 145-148); the outer `none` is the `IndexError` that
both lookups raise when the list is empty. -/
def lookupQuery (queries : List (Option String)) (z : ℕ) : Option (Option String) :=
  match queries.get? z with
  | some q => some q
  | none => queries.getLast?

/-- The tolerance expression of server.py line 160:
`self.simplify * tolerances[coord.zoom] if coord.zoom < self.simplify_until else None`;
`.error` is the `IndexError` from `tolerances[coord.zoom]`. -/
def toleranceFor (simplify : ℚ) (simplify_until : ℕ) (z : ℕ) : Except String (Option ℚ) :=
  if z < simplify_until then
    match tolerances.get? z with
    | some t => .ok (some (simplify * t))
    | none => .error "IndexError"
  else .ok none

/-- Modelled from the spec: the padding multiple of the per-zoom unit
distance declared by the external `oscimap` encoder module (code of this
repository not under `src/`); its exact value decides no claim. -/
def oscimap_padding : ℚ := 5

/-- Modelled from the spec: the tile-native output extent of the external
`oscimap` encoder module (not under `src/`); nonzero, its exact value
decides no claim. -/
def oscimap_extents : ℚ := 4096

/-- Modelled from the spec: the padding multiple of the external `mapbox`
encoder module (not under `src/`); its exact value decides no claim. -/
def mapbox_padding : ℚ := 5

/-- Modelled from the spec: the tile-native output extent of the external
`mapbox` encoder module (not under `src/`); nonzero, its exact value
decides no claim. -/
def mapbox_extents : ℚ := 4096

/-- The state of a `Response` object: constructor arguments kept on `self`,
plus `tolerance` (the argument as passed on to `build_query`) and the
`self.query` format dictionary (a lookup function; `none` = missing key,
i.e. `KeyError`). -/
structure ResponseModel where
  bounds : B4
  zoom : ℕ
  clip : Bool
  coord : Coord
  layer_name : String
  tolerance : Option ℚ
  query : String → Option String

def exceptOfOption (e : String) : Option α → Except String α
  | some a => .ok a
  | none => .error e

/-- Embedding of `Response.__init__` (server.py 255-271): build the
geographic, mercator and two padded+scaled binary-format queries, in source
order, then the format dictionary.  The two binary variants index
`tolerances[coord.zoom]` unconditionally for their padding; out of range
this raises `IndexError`. -/
def mkResponse (srid : ℤ) (subquery : String) (columns : List String) (bounds : B4)
    (tolerance : Option ℚ) (zoom : ℕ) (clip : Bool) (coord : Coord)
    (layer_name : String) : Except String ResponseModel :=
  match build_query srid subquery columns bounds tolerance true clip 0 none with
  | none => .error "Exception"
  | some geo_query =>
    match build_query srid subquery columns bounds tolerance false clip 0 none with
    | none => .error "Exception"
    | some merc_query =>
      match tolerances.get? coord.zoom with
      | none => .error "IndexError"
      | some t1 =>
        match build_query srid subquery columns bounds tolerance false clip
            (oscimap_padding * t1) (some oscimap_extents) with
        | none => .error "Exception"
        | some oscimap_query =>
          match tolerances.get? coord.zoom with
          | none => .error "IndexError"
          | some t2 =>
            match build_query srid subquery columns bounds tolerance false clip
                (mapbox_padding * t2) (some mapbox_extents) with
            | none => .error "Exception"
            | some mapbox_query =>
              .ok { bounds := bounds, zoom := zoom, clip := clip, coord := coord,
                    layer_name := layer_name, tolerance := tolerance,
                    query := fun f =>
                      if f = "TopoJSON" then some geo_query
                      else if f = "JSON" then some geo_query
                      else if f = "MVT" then some merc_query
                      else if f = "OpenScienceMap" then some oscimap_query
                      else if f = "Mapbox" then some mapbox_query
                      else none }

inductive RenderResult where
  | empty : B4 → RenderResult
  | resp : ResponseModel → RenderResult

/-- Embedding of `Provider.renderTile` (server.py 142-162).  The
tile-coordinate → mercator bounds projection is host-framework math and is
passed in as `bounds`; `columns` is the `query_columns` oracle backing the
`self.columns` cache (`none` both for a fresh `query_columns` returning
`None`, which makes the later column iteration raise `TypeError`). -/
def renderTile (cfg : ProviderCfg) (columns : String → Option (List String))
    (coord : Coord) (bounds : B4) (layer_name : String) :
    Except String RenderResult :=
  match lookupQuery cfg.queries coord.zoom with
  | none => .error "IndexError"
  | some none => .ok (.empty bounds)
  | some (some query) =>
    if query = "" then .ok (.empty bounds)
    else
      match columns query with
      | none => .error "TypeError"
      | some cols =>
        match toleranceFor cfg.simplify cfg.simplify_until coord.zoom with
        | .error e => .error e
        | .ok tolerance =>
          match mkResponse cfg.srid query cols bounds tolerance coord.zoom
              cfg.clip coord layer_name with
          | .error e => .error e
          | .ok r => .ok (.resp r)

theorem tolerances_length : tolerances.length = 22 := by
  rw [tolerances, List.length_map, List.length_range]

theorem tolerances_get_le21 (z : ℕ) (hz : z <= 21) :
    tolerances.get? z = some (base_unit_distance z) := by
  rw [tolerances, List.get?_eq_getElem?, List.getElem?_map, List.getElem?_range (by omega)]
  rfl

theorem tolerances_get_ge22 (z : ℕ) (hz : 22 <= z) :
    tolerances.get? z = none := by
  rw [List.get?_eq_none]
  rw [tolerances_length]
  omega

theorem build_query_isSome (srid : ℤ) (subq : String) (cols : List String)
    (b : B4) (tol : Option ℚ) (geo clip : Bool) (pad : ℚ) (sc : Option ℚ)
    (hg : "__geometry__" ∈ cols) :
    ∃ s, build_query srid subq cols b tol geo clip pad sc = some s := by
  rw [build_query, build_query_segs]
  simp only [if_neg (not_not_intro hg)]
  exact ⟨_, rfl⟩

/-- Shape of a successful `renderTile`: the resolved query is non-null, its
column set is known and has a geometry column, and the zoom is in the range
of the `tolerances` table. -/
theorem renderTile_resp (cfg : ProviderCfg) (columns : String → Option (List String))
    (coord : Coord) (bounds : B4) (ln q : String) (cols : List String)
    (hq : lookupQuery cfg.queries coord.zoom = some (some q)) (hne : q ≠ "")
    (hc : columns q = some cols) (hg : "__geometry__" ∈ cols)
    (hz : coord.zoom <= 21) :
    ∃ r, renderTile cfg columns coord bounds ln = .ok (.resp r)
      ∧ r.tolerance = (if coord.zoom < cfg.simplify_until
          then some (cfg.simplify * base_unit_distance coord.zoom) else none)
      ∧ r.bounds = bounds ∧ r.zoom = coord.zoom ∧ r.clip = cfg.clip
      ∧ r.coord = coord ∧ r.layer_name = ln := by
  obtain ⟨sg, hsg⟩ := build_query_isSome cfg.srid q cols bounds
    (if coord.zoom < cfg.simplify_until
      then some (cfg.simplify * base_unit_distance coord.zoom) else none)
    true cfg.clip 0 none hg
  obtain ⟨sm, hsm⟩ := build_query_isSome cfg.srid q cols bounds
    (if coord.zoom < cfg.simplify_until
      then some (cfg.simplify * base_unit_distance coord.zoom) else none)
    false cfg.clip 0 none hg
  obtain ⟨so, hso⟩ := build_query_isSome cfg.srid q cols bounds
    (if coord.zoom < cfg.simplify_until
      then some (cfg.simplify * base_unit_distance coord.zoom) else none)
    false cfg.clip (oscimap_padding * base_unit_distance coord.zoom)
    (some oscimap_extents) hg
  obtain ⟨sx, hsx⟩ := build_query_isSome cfg.srid q cols bounds
    (if coord.zoom < cfg.simplify_until
      then some (cfg.simplify * base_unit_distance coord.zoom) else none)
    false cfg.clip (mapbox_padding * base_unit_distance coord.zoom)
    (some mapbox_extents) hg
  have htol : toleranceFor cfg.simplify cfg.simplify_until coord.zoom
      = .ok (if coord.zoom < cfg.simplify_until
          then some (cfg.simplify * base_unit_distance coord.zoom) else none) := by
    rw [toleranceFor]
    split
    · rw [tolerances_get_le21 coord.zoom hz]
    · rfl
  simp only [renderTile, hq, if_neg hne, hc, htol, mkResponse, hsg, hsm,
    tolerances_get_le21 coord.zoom hz, hso, hsx]
  exact ⟨_, rfl, rfl, rfl, rfl, rfl, rfl, rfl⟩

/-- A provider configuration used for concrete instances: a single query for
all zooms, clip on, SRID 900913, simplify 1.0, simplify_until 16 (the source
defaults). -/
def cfgC1 : ProviderCfg := ⟨[some subQ0], true, 900913, 1, 16⟩

def columnsOracle0 : String → Option (List String) := fun _ => some cols0

def bounds0 : B4 := ⟨0, 0, 1, 1⟩

/-- Observer: the tolerance stored in a successful non-empty response. -/
def renderedTolerance : Except String RenderResult → Option (Option ℚ)
  | .ok (.resp r) => some r.tolerance
  | _ => none

/-- C1: the `tolerances` table has 22 entries, covering zooms 0..21, and
entry `z` is `base_unit_distance z` (the spec formula, as a coefficient of
`π`); for a request at zoom `z < simplify_until` the tolerance passed to
query synthesis (recorded on the response) is
`simplify * base_unit_distance z`; for `z ≥ simplify_until` the response
tolerance is `None`, and the line-160 tolerance expression is `None` for
every `z ≥ simplify_until` whatsoever. -/
theorem C1_tolerance_formula (cfg : ProviderCfg)
    (columns : String → Option (List String)) (coord : Coord) (bounds : B4)
    (ln q : String) (cols : List String)
    (hq : lookupQuery cfg.queries coord.zoom = some (some q)) (hne : q ≠ "")
    (hc : columns q = some cols) (hg : "__geometry__" ∈ cols)
    (hz : coord.zoom <= 21) :
    tolerances.length = 22
    ∧ tolerances.get? coord.zoom = some (base_unit_distance coord.zoom)
    ∧ (coord.zoom < cfg.simplify_until →
        ∃ r, renderTile cfg columns coord bounds ln = .ok (.resp r)
          ∧ r.tolerance = some (cfg.simplify * base_unit_distance coord.zoom))
    ∧ (cfg.simplify_until <= coord.zoom →
        ∃ r, renderTile cfg columns coord bounds ln = .ok (.resp r)
          ∧ r.tolerance = none)
    ∧ (∀ (simplify : ℚ) (su zz : ℕ), su <= zz →
        toleranceFor simplify su zz = .ok none) := by
  obtain ⟨r, hr, hrt, -, -, -, -, -⟩ :=
    renderTile_resp cfg columns coord bounds ln q cols hq hne hc hg hz
  refine ⟨tolerances_length, tolerances_get_le21 _ hz, ?_, ?_, ?_⟩
  · intro hlt
    exact ⟨r, hr, by rw [hrt, if_pos hlt]⟩
  · intro hge
    exact ⟨r, hr, by rw [hrt, if_neg (by omega)]⟩
  · intro simplify su zz hle
    rw [toleranceFor, if_neg (by omega)]

/-- Witness for C1 at zoom 3 with the default configuration. -/
theorem C1_tolerance_formula_witness :
    tolerances.length = 22
    ∧ tolerances.get? 3 = some (base_unit_distance 3)
    ∧ ((3 : ℕ) < cfgC1.simplify_until →
        ∃ r, renderTile cfgC1 columnsOracle0 ⟨3, 0, 0⟩ bounds0 "water" = .ok (.resp r)
          ∧ r.tolerance = some (cfgC1.simplify * base_unit_distance 3))
    ∧ (cfgC1.simplify_until <= (3 : ℕ) →
        ∃ r, renderTile cfgC1 columnsOracle0 ⟨3, 0, 0⟩ bounds0 "water" = .ok (.resp r)
          ∧ r.tolerance = none)
    ∧ (∀ (simplify : ℚ) (su zz : ℕ), su <= zz →
        toleranceFor simplify su zz = .ok none) :=
  C1_tolerance_formula cfgC1 columnsOracle0 ⟨3, 0, 0⟩ bounds0 "water" subQ0 cols0
    (by decide) (by decide) rfl (by decide) (by decide)

/-- C10: for every tile request whose resolved query template is non-null
(and whose column set is discoverable with a geometry column) and whose zoom
is at least 22, `renderTile` fails with `IndexError` — also when
`zoom ≥ simplify_until`, where the tolerance expression itself is `None`,
because `Response.__init__` always indexes the 22-entry `tolerances` table
at `coord.zoom` to compute the binary-format padding variants. -/
theorem C10_renderTile_indexError (cfg : ProviderCfg)
    (columns : String → Option (List String)) (coord : Coord) (bounds : B4)
    (ln q : String) (cols : List String)
    (hq : lookupQuery cfg.queries coord.zoom = some (some q)) (hne : q ≠ "")
    (hc : columns q = some cols) (hg : "__geometry__" ∈ cols)
    (hz : 22 <= coord.zoom) :
    renderTile cfg columns coord bounds ln = .error "IndexError" := by
  have hnone := tolerances_get_ge22 coord.zoom hz
  by_cases hlt : coord.zoom < cfg.simplify_until
  · simp only [renderTile, hq, if_neg hne, hc, toleranceFor, if_pos hlt, hnone]
  · obtain ⟨sg, hsg⟩ := build_query_isSome cfg.srid q cols bounds none true
      cfg.clip 0 none hg
    obtain ⟨sm, hsm⟩ := build_query_isSome cfg.srid q cols bounds none false
      cfg.clip 0 none hg
    simp only [renderTile, hq, if_neg hne, hc, toleranceFor, if_neg hlt,
      mkResponse, hsg, hsm, hnone]

/-- Witness for C10: zoom 22 with the default configuration
(`simplify_until = 16`, so the tolerance expression is already `None`). -/
theorem C10_renderTile_indexError_witness :
    renderTile cfgC1 columnsOracle0 ⟨22, 0, 0⟩ bounds0 "water"
      = .error "IndexError" :=
  C10_renderTile_indexError cfgC1 columnsOracle0 ⟨22, 0, 0⟩ bounds0 "water"
    subQ0 cols0 (by decide) (by decide) rfl (by decide) (by decide)

/-- C3 counterexample: with the single-entry query list, the template
resolved at zoom 2 is the same as at zoom `len-1 = 0` (sticky lookup), but
the tolerance is not "the same as resolve(len(queries)-1)": at zoom 2 it is
`simplify * tolerances[2]`, while `resolve(0)` carries
`simplify * tolerances[0]`, and the two differ. -/
theorem C3_counterexample :
    lookupQuery cfgC1.queries 2 = lookupQuery cfgC1.queries 0
    ∧ renderedTolerance (renderTile cfgC1 columnsOracle0 ⟨2, 0, 0⟩ bounds0 "water")
        = some (some (cfgC1.simplify * base_unit_distance 2))
    ∧ renderedTolerance (renderTile cfgC1 columnsOracle0 ⟨0, 0, 0⟩ bounds0 "water")
        = some (some (cfgC1.simplify * base_unit_distance 0))
    ∧ cfgC1.simplify * base_unit_distance 2 ≠ cfgC1.simplify * base_unit_distance 0 := by
  obtain ⟨r2, hr2, ht2, -, -, -, -, -⟩ :=
    renderTile_resp cfgC1 columnsOracle0 ⟨2, 0, 0⟩ bounds0 "water" subQ0 cols0
      (by decide) (by decide) rfl (by decide) (by decide)
  obtain ⟨r0, hr0, ht0, -, -, -, -, -⟩ :=
    renderTile_resp cfgC1 columnsOracle0 ⟨0, 0, 0⟩ bounds0 "water" subQ0 cols0
      (by decide) (by decide) rfl (by decide) (by decide)
  refine ⟨rfl, ?_, ?_, ?_⟩
  · rw [hr2]
    show some r2.tolerance = _
    rw [ht2, if_pos (by decide)]
  · rw [hr0]
    show some r0.tolerance = _
    rw [ht0, if_pos (by decide)]
  · norm_num [cfgC1, base_unit_distance, EARTH_CONSTANT]

/-- C3 (amended): for every zoom `z ≥ len(queries)` (list non-empty),
`renderTile` resolves the same query template as for zoom `len(queries)-1`
— lookup past the end is sticky on the last entry; the tolerance, however,
is computed from the requested zoom `z` by the usual rule
(`simplify * tolerances[z]` when `z < simplify_until`, absent otherwise),
not copied from zoom `len(queries)-1`. -/
theorem C3_amended_sticky_template (queries : List (Option String)) (z : ℕ)
    (hne : queries ≠ []) (hz : queries.length <= z) :
    lookupQuery queries z = lookupQuery queries (queries.length - 1)
    ∧ (∀ (simplify : ℚ) (su : ℕ), z < su → z <= 21 →
        toleranceFor simplify su z = .ok (some (simplify * base_unit_distance z)))
    ∧ (∀ (simplify : ℚ) (su : ℕ), su <= z →
        toleranceFor simplify su z = .ok none) := by
  have hlen : 0 < queries.length := List.length_pos.mpr hne
  refine ⟨?_, ?_, ?_⟩
  · have h1 : queries.get? z = none := List.get?_eq_none.mpr (by omega)
    have h3 : queries.get? (queries.length - 1) = queries.getLast? := by
      rw [List.getLast?_eq_getElem?, List.get?_eq_getElem?]
    simp only [lookupQuery, h1, h3]
    cases queries.getLast? <;> rfl
  · intro simplify su hlt hle
    rw [toleranceFor, if_pos hlt, tolerances_get_le21 z hle]
  · intro simplify su hge
    rw [toleranceFor, if_neg (by omega)]

/-- Witness for the amended C3 at `queries = [null, query]`, zoom 5. -/
theorem C3_amended_sticky_template_witness :
    lookupQuery [none, some subQ0] 5 = lookupQuery [none, some subQ0] 1
    ∧ (∀ (simplify : ℚ) (su : ℕ), 5 < su → (5 : ℕ) <= 21 →
        toleranceFor simplify su 5 = .ok (some (simplify * base_unit_distance 5)))
    ∧ (∀ (simplify : ℚ) (su : ℕ), su <= 5 →
        toleranceFor simplify su 5 = .ok none) := by
  have h := C3_amended_sticky_template [none, some subQ0] 5 (by decide) (by decide)
  simpa using h

/-! ## Features, encoder calls and the save dispatch

Embedding of `get_features` (server.py 420-439), `Response.save`
(273-296) and `EmptyResponse.save` (304-325).  The encoders themselves are
external codecs; a dispatch is recorded as an `EncodeCall` value holding
the encoder that was invoked and its arguments after the output sink. -/

/-- A database row: a dict of column name → value-or-SQL-NULL.  The scalar
value type `V` is abstract (values are moved around, never inspected). -/
structure Row (V : Type) where
  cols : List (String × Option V)
deriving DecidableEq

def rowLookup {V : Type} (row : Row V) (k : String) : Option (Option V) :=
  (row.cols.find? (fun kv => kv.1 == k)).map Prod.snd

/-- A feature tuple as produced by `get_features`: `(wkb, properties)` or
`(wkb, properties, id)` (the id itself may be SQL NULL). -/
inductive Feature (V : Type) where
  | short : V → List (String × V) → Feature V
  | long : V → List (String × V) → Option V → Feature V
deriving DecidableEq

/-- Row processing of `get_features` (server.py 420-439): a row whose
`__geometry__` is NULL is skipped; otherwise the property dict collects the
non-NULL values of all columns other than `__geometry__` and `__id__`, and
the feature is the 3-tuple with `row['__id__']` when the row has that key,
else the 2-tuple.  A row without a `__geometry__` key raises `KeyError`.
The query execution feeding the rows is the `db` oracle at the call sites. -/
def get_features {V : Type} : List (Row V) → Except String (List (Feature V))
  | [] => .ok []
  | row :: rest =>
    match rowLookup row "__geometry__" with
    | none => .error "KeyError: __geometry__"
    | some none => get_features rest
    | some (some wkb) =>
      let prop := row.cols.filterMap (fun kv =>
        match kv.2 with
        | some v => if kv.1 ≠ "__geometry__" ∧ kv.1 ≠ "__id__" then some (kv.1, v) else none
        | none => none)
      match get_features rest with
      | .error e => .error e
      | .ok fs =>
        match rowLookup row "__id__" with
        | some i => .ok (Feature.long wkb prop i :: fs)
        | none => .ok (Feature.short wkb prop :: fs)

/-- One dispatched call to an external encoder: the encoder module and its
arguments after the output sink.  The binary-format constructors carry the
coordinate argument (`none` = Python `None`) and the optional layer-name
argument (`none` = argument omitted, as in `EmptyResponse.save`). -/
inductive EncodeCall (V : Type) where
  | mvt : List (Feature V) → EncodeCall V
  | geojson : List (Feature V) → ℕ → Bool → EncodeCall V
  | topojson : List (Feature V) → ℚ × ℚ × ℚ × ℚ → Bool → EncodeCall V
  | oscimap : List (Feature V) → Option Coord → Option String → EncodeCall V
  | mapbox : List (Feature V) → Option Coord → Option String → EncodeCall V
deriving DecidableEq

/-- Which encoder module a call dispatches to. -/
def EncodeCall.fam {V : Type} : EncodeCall V → ℕ
  | .mvt _ => 0
  | .geojson _ _ _ => 1
  | .topojson _ _ _ => 2
  | .oscimap _ _ _ => 3
  | .mapbox _ _ _ => 4

/-- The feature sequence argument of a call. -/
def EncodeCall.feats {V : Type} : EncodeCall V → List (Feature V)
  | .mvt fs => fs
  | .geojson fs _ _ => fs
  | .topojson fs _ _ => fs
  | .oscimap fs _ _ => fs
  | .mapbox fs _ _ => fs

/-- The two `SphericalMercator().projLocation(Point(...))` calls of the
TopoJSON branches (host-framework projection math, abstracted as `proj`):
the `(ll.lon, ll.lat, ur.lon, ur.lat)` argument. -/
def projBounds (proj : ℚ × ℚ → ℚ × ℚ) (b : B4) : ℚ × ℚ × ℚ × ℚ :=
  ((proj (b.xmin, b.ymin)).1, (proj (b.xmin, b.ymin)).2,
   (proj (b.xmax, b.ymax)).1, (proj (b.xmax, b.ymax)).2)

/-- Embedding of `Response.save` (server.py 273-296): fetch the features of
the requested format's query first (an unknown format therefore raises
`KeyError` already at `self.query[format]`), then dispatch on the format
string. -/
def respSave {V : Type} (r : ResponseModel) (db : String → List (Row V))
    (proj : ℚ × ℚ → ℚ × ℚ) (format : String) : Except String (EncodeCall V) :=
  match r.query format with
  | none => .error ("KeyError: " ++ format)
  | some q =>
    match get_features (db q) with
    | .error e => .error e
    | .ok features =>
      if format = "MVT" then .ok (.mvt features)
      else if format = "JSON" then .ok (.geojson features r.zoom r.clip)
      else if format = "TopoJSON" then
        .ok (.topojson features (projBounds proj r.bounds) r.clip)
      else if format = "OpenScienceMap" then
        .ok (.oscimap features (some r.coord) (some r.layer_name))
      else if format = "Mapbox" then
        .ok (.mapbox features (some r.coord) (some r.layer_name))
      else .error ("ValueError: " ++ format ++ " is not supported")

/-- Embedding of `EmptyResponse.save` (server.py 304-325): dispatch with an
empty feature list; JSON is called with zoom `0` and clip `False`, TopoJSON
with clip `False`, and the binary formats with coordinate `None` and the
layer-name argument omitted. -/
def emptySave {V : Type} (bounds : B4) (proj : ℚ × ℚ → ℚ × ℚ)
    (format : String) : Except String (EncodeCall V) :=
  if format = "MVT" then .ok (.mvt [])
  else if format = "JSON" then .ok (.geojson [] 0 false)
  else if format = "TopoJSON" then .ok (.topojson [] (projBounds proj bounds) false)
  else if format = "OpenScienceMap" then .ok (.oscimap [] none none)
  else if format = "Mapbox" then .ok (.mapbox [] none none)
  else .error ("ValueError: " ++ format ++ " is not supported")

/-- A concrete response state used for counterexamples. -/
def respC2 : ResponseModel :=
  { bounds := ⟨0, 0, 1, 1⟩, zoom := 14, clip := true, coord := ⟨14, 3, 5⟩,
    layer_name := "water", tolerance := none,
    query := fun f =>
      if f = "TopoJSON" ∨ f = "JSON" ∨ f = "MVT" ∨ f = "OpenScienceMap" ∨ f = "Mapbox"
      then some "Q" else none }

def dbEmpty : String → List (Row String) := fun _ => []

def projId : ℚ × ℚ → ℚ × ℚ := fun p => p

/-- C2 counterexample: on a query returning zero rows, `Response.save` for
JSON dispatches `geojson.encode(out, [], 14, True)` while
`EmptyResponse.save` dispatches `geojson.encode(out, [], 0, False)` — the
same encoder and empty features, but different format-specific context
arguments, so the outputs are not structurally equivalent as claimed. -/
theorem C2_counterexample :
    respSave respC2 dbEmpty projId "JSON" = .ok (.geojson [] 14 true)
    ∧ (emptySave respC2.bounds projId "JSON" : Except String (EncodeCall String))
        = .ok (.geojson [] 0 false)
    ∧ (EncodeCall.geojson ([] : List (Feature String)) 14 true
        ≠ EncodeCall.geojson [] 0 false) :=
  ⟨rfl, rfl, by decide⟩

/-- C2 (amended): for every supported format, on a query returning zero
rows, `EmptyResponse.save` dispatches to the same encoder as
`Response.save`, both with the empty feature sequence, and for MVT the two
calls coincide entirely; the remaining format-specific context arguments
need not coincide (EmptyResponse always passes zoom 0, clip False and a
null coordinate). -/
theorem C2_amended_empty_equivalence {V : Type} (r : ResponseModel)
    (db : String → List (Row V)) (proj : ℚ × ℚ → ℚ × ℚ) (format : String)
    (hf : format ∈ (["MVT", "JSON", "TopoJSON", "OpenScienceMap", "Mapbox"] : List String))
    (hq : (r.query format).isSome)
    (hdb : ∀ q, db q = []) :
    ∃ c₁ c₂, respSave r db proj format = .ok c₁
      ∧ emptySave r.bounds proj format = .ok c₂
      ∧ c₁.fam = c₂.fam ∧ c₁.feats = [] ∧ c₂.feats = []
      ∧ (format = "MVT" → c₁ = c₂) := by
  obtain ⟨q, hqq⟩ := Option.isSome_iff_exists.mp hq
  have hgf : get_features (db q) = .ok ([] : List (Feature V)) := by
    rw [hdb]
    rfl
  fin_cases hf
  · exact ⟨.mvt [], .mvt [], by simp [respSave, hqq, hgf],
      rfl, rfl, rfl, rfl, fun _ => rfl⟩
  · exact ⟨.geojson [] r.zoom r.clip, .geojson [] 0 false,
      by simp [respSave, hqq, hgf], rfl, rfl, rfl, rfl,
      fun h => absurd h (by decide)⟩
  · exact ⟨.topojson [] (projBounds proj r.bounds) r.clip,
      .topojson [] (projBounds proj r.bounds) false,
      by simp [respSave, hqq, hgf], rfl, rfl, rfl, rfl,
      fun h => absurd h (by decide)⟩
  · exact ⟨.oscimap [] (some r.coord) (some r.layer_name), .oscimap [] none none,
      by simp [respSave, hqq, hgf], rfl, rfl, rfl, rfl,
      fun h => absurd h (by decide)⟩
  · exact ⟨.mapbox [] (some r.coord) (some r.layer_name), .mapbox [] none none,
      by simp [respSave, hqq, hgf], rfl, rfl, rfl, rfl,
      fun h => absurd h (by decide)⟩

/-- Witness for the amended C2 at the JSON format. -/
theorem C2_amended_empty_equivalence_witness :
    ∃ c₁ c₂, respSave respC2 dbEmpty projId "JSON" = .ok c₁
      ∧ (emptySave respC2.bounds projId "JSON" : Except String (EncodeCall String)) = .ok c₂
      ∧ c₁.fam = c₂.fam ∧ c₁.feats = [] ∧ c₂.feats = []
      ∧ ("JSON" = "MVT" → c₁ = c₂) :=
  C2_amended_empty_equivalence respC2 dbEmpty projId "JSON" (by decide) (by decide)
    (fun _ => rfl)

/-! ## Column introspection: the bbox probe loop

Embedding of `query_columns` (server.py 390-418).  The database probe
(`template` with the bbox substituted, `LIMIT 1`) depends, for a fixed
template, only on the probed bounds; it is the oracle `db`, returning the
column names of the sampled row or `none` for "no row".  The `while` loop
is modelled as fuel recursion; `fuelFor` supplies enough fuel that the
fuel-exhaustion arm is unreachable for a box of positive width. -/

/-- The planetary-scale cutoff `1.61e15` (exactly representable). -/
def cutoff : ℚ := 1610000000000000

/-- `abs(bounds[2] - bounds[0])`, the x-extent used by the loop guard. -/
def width (b : B4) : ℚ := |b.xmax - b.xmin|

/-- The bbox expansion after a failed probe (server.py 410-413): grow by
3.5× the current width/height on each side. -/
def expand (b : B4) : B4 :=
  ⟨b.xmin - (b.xmax - b.xmin) * 3.5,
   b.ymin - (b.ymax - b.ymin) * 3.5,
   b.xmax + (b.xmax - b.xmin) * 3.5,
   b.ymax + (b.ymax - b.ymin) * 3.5⟩

/-- The `while` loop of `query_columns`: before each probe the guard
`abs(b[2]-b[0]) * abs(b[2]-b[0]) < 1.61e15` is checked; a returned row
yields its column names, no row expands the box and retries; when the
guard fails the loop falls through, returning `None`. -/
def query_columns_loop (db : B4 → Option (List String)) : ℕ → B4 → Option (List String)
  | 0, _ => none
  | fuel + 1, b =>
    if width b * width b < cutoff then
      match db b with
      | some row => some row
      | none => query_columns_loop db fuel (expand b)
    else none

/-- Sufficient fuel for a box of positive width (proved below): the width
is at least `1/den`, and `8^(den+9)/den` already exceeds the cutoff
width. -/
def fuelFor (b : B4) : ℕ := (width b).den + 10

/-- `query_columns` is the loop run with sufficient fuel. -/
def query_columns (db : B4 → Option (List String)) (b : B4) : Option (List String) :=
  query_columns_loop db (fuelFor b) b

theorem width_expand (b : B4) : width (expand b) = 8 * width b := by
  show |b.xmax + (b.xmax - b.xmin) * 3.5 - (b.xmin - (b.xmax - b.xmin) * 3.5)|
      = 8 * |b.xmax - b.xmin|
  have h : b.xmax + (b.xmax - b.xmin) * 3.5 - (b.xmin - (b.xmax - b.xmin) * 3.5)
      = 8 * (b.xmax - b.xmin) := by ring
  rw [h, abs_mul]
  norm_num

/-- Once the (monotonically growing) width would pass the cutoff within `n`
expansions, the loop's result no longer depends on the fuel beyond `n+1`:
the loop terminates within `n+1` iterations. -/
theorem query_columns_loop_stable (db : B4 → Option (List String)) (n : ℕ) :
    ∀ (b : B4) (fuel : ℕ),
      cutoff <= (width b * 8 ^ n) * (width b * 8 ^ n) → n + 1 <= fuel →
      query_columns_loop db fuel b = query_columns_loop db (n + 1) b := by
  induction n with
  | zero =>
    intro b fuel hcut hf
    obtain ⟨f, rfl⟩ : ∃ f, fuel = f + 1 := ⟨fuel - 1, by omega⟩
    rw [query_columns_loop, query_columns_loop]
    simp only [pow_zero, mul_one] at hcut
    rw [if_neg (not_lt.mpr hcut), if_neg (not_lt.mpr hcut)]
  | succ m ih =>
    intro b fuel hcut hf
    obtain ⟨f, rfl⟩ : ∃ f, fuel = f + 1 := ⟨fuel - 1, by omega⟩
    rw [query_columns_loop]
    rw [show query_columns_loop db (m + 1 + 1) b
        = (if width b * width b < cutoff then
            match db b with
            | some row => some row
            | none => query_columns_loop db (m + 1) (expand b)
          else none) from rfl]
    by_cases hw : width b * width b < cutoff
    · rw [if_pos hw, if_pos hw]
      cases db b with
      | some row => rfl
      | none =>
        apply ih (expand b) f ?_ (by omega)
        rw [width_expand]
        have heq : (8 * width b * 8 ^ m) * (8 * width b * 8 ^ m)
            = (width b * 8 ^ (m + 1)) * (width b * 8 ^ (m + 1)) := by
          rw [pow_succ]
          ring
        rw [heq]
        exact hcut
    · rw [if_neg hw, if_neg hw]

/-- If rows exist exactly beyond width `W` – with `W` far enough below the
cutoff that the first super-`W` probe still passes the guard – then a box
of positive sub-cutoff width succeeds with the template's column set within
`n+1` iterations, where `n` is any exponent with `W < width * 8^n`. -/
theorem query_columns_loop_success (db : B4 → Option (List String)) (W : ℚ)
    (cols : List String) (hW0 : 0 <= W) (hWc : (8 * W) * (8 * W) < cutoff)
    (hnone : ∀ bb, width bb <= W → db bb = none)
    (hsome : ∀ bb, W < width bb → db bb = some cols) :
    ∀ (n : ℕ) (b : B4) (fuel : ℕ),
      0 < width b → width b * width b < cutoff → W < width b * 8 ^ n →
      n + 1 <= fuel → query_columns_loop db fuel b = some cols := by
  intro n
  induction n with
  | zero =>
    intro b fuel hw hwc hWn hf
    obtain ⟨f, rfl⟩ : ∃ f, fuel = f + 1 := ⟨fuel - 1, by omega⟩
    rw [query_columns_loop, if_pos hwc, hsome b (by simpa using hWn)]
  | succ m ih =>
    intro b fuel hw hwc hWn hf
    obtain ⟨f, rfl⟩ : ∃ f, fuel = f + 1 := ⟨fuel - 1, by omega⟩
    rw [query_columns_loop, if_pos hwc]
    rcases lt_or_le W (width b) with hgt | hle
    · rw [hsome b hgt]
    · rw [hnone b hle]
      refine ih (expand b) f ?_ ?_ ?_ (by omega)
      · rw [width_expand]
        linarith
      · rw [width_expand]
        nlinarith
      · rw [width_expand]
        have heq : 8 * width b * 8 ^ m = width b * 8 ^ (m + 1) := by
          rw [pow_succ]
          ring
        rw [heq]
        exact hWn

/-- A positive-width box always supplies enough fuel: in `(width).den + 9`
expansions the squared width passes the cutoff. -/
theorem width_den_bound (w : ℚ) (hw : 0 < w) :
    cutoff <= (w * 8 ^ (w.den + 9)) * (w * 8 ^ (w.den + 9)) := by
  have hden : (0 : ℚ) < (w.den : ℚ) := by
    exact_mod_cast w.den_pos
  have hnum : (1 : ℚ) <= (w.num : ℚ) := by
    have := Rat.num_pos.mpr hw
    exact_mod_cast this
  have hw1 : 1 / (w.den : ℚ) <= w := by
    have hrepr : w = ((w.num : ℚ)) / ((w.den : ℚ)) := (Rat.num_div_den w).symm
    have hwd : w * (w.den : ℚ) = (w.num : ℚ) := (eq_div_iff (ne_of_gt hden)).mp hrepr
    rw [div_le_iff₀ hden]
    linarith
  have hd8 : (w.den : ℚ) <= 8 ^ w.den := by
    have h2p : (w.den : ℚ) < 2 ^ w.den := by
      exact_mod_cast Nat.lt_two_pow w.den
    have h28 : (2 : ℚ) ^ w.den <= 8 ^ w.den :=
      pow_le_pow_left₀ (by norm_num) (by norm_num) w.den
    linarith
  have hpow : (w.den : ℚ) * 134217728 <= 8 ^ (w.den + 9) := by
    have h1 : (w.den : ℚ) * 134217728 <= 8 ^ w.den * 134217728 := by
      have := mul_le_mul_of_nonneg_right hd8 (by norm_num : (0:ℚ) <= 134217728)
      linarith
    have h2 : (8 : ℚ) ^ w.den * 134217728 = 8 ^ (w.den + 9) := by
      rw [pow_add]
      norm_num
    linarith
  have h2 : (134217728 : ℚ) <= w * 8 ^ (w.den + 9) := by
    have ha : (134217728 : ℚ) = (1 / (w.den : ℚ)) * ((w.den : ℚ) * 134217728) := by
      field_simp
    have hb : (1 / (w.den : ℚ)) * ((w.den : ℚ) * 134217728)
        <= (1 / (w.den : ℚ)) * 8 ^ (w.den + 9) :=
      mul_le_mul_of_nonneg_left hpow (by positivity)
    have hc : (1 / (w.den : ℚ)) * 8 ^ (w.den + 9) <= w * 8 ^ (w.den + 9) :=
      mul_le_mul_of_nonneg_right hw1 (by positivity)
    linarith
  have h3 : (134217728 : ℚ) * 134217728
      <= (w * 8 ^ (w.den + 9)) * (w * 8 ^ (w.den + 9)) :=
    mul_le_mul h2 h2 (by norm_num) (le_trans (by norm_num) h2)
  calc cutoff <= (134217728 : ℚ) * 134217728 := by norm_num [cutoff]
    _ <= _ := h3

/-- C6 (amended): (a) each failed probe grows the box so that the width is
multiplied by exactly 8; (b) the loop checks the squared-x-extent guard
before each probe and terminates within `n+1` iterations as soon as
`(width·8^n)² ≥ 1.61e15` – its result does not depend on fuel beyond that
bound; (c) if rows exist exactly beyond some width `W ≥ 0` and
`(8W)² < 1.61e15` (so the first probe past `W` still passes the guard),
then from a box of positive sub-cutoff width the correct column set is
returned within `n+1` probes for any `n` with `W < width·8^n`; (d) in
particular `query_columns` itself returns the correct column set.  Without
the `(8W)²` proviso the claim fails (see the counterexample). -/
theorem C6_amended_probe_bound :
    (∀ b : B4, width (expand b) = 8 * width b)
    ∧ (∀ (db : B4 → Option (List String)) (n : ℕ) (b : B4) (fuel : ℕ),
        cutoff <= (width b * 8 ^ n) * (width b * 8 ^ n) → n + 1 <= fuel →
        query_columns_loop db fuel b = query_columns_loop db (n + 1) b)
    ∧ (∀ (db : B4 → Option (List String)) (W : ℚ) (cols : List String)
        (n : ℕ) (b : B4) (fuel : ℕ),
        0 <= W → (8 * W) * (8 * W) < cutoff →
        (∀ bb, width bb <= W → db bb = none) →
        (∀ bb, W < width bb → db bb = some cols) →
        0 < width b → width b * width b < cutoff → W < width b * 8 ^ n →
        n + 1 <= fuel → query_columns_loop db fuel b = some cols)
    ∧ (∀ (db : B4 → Option (List String)) (W : ℚ) (cols : List String) (b : B4),
        0 <= W → (8 * W) * (8 * W) < cutoff →
        (∀ bb, width bb <= W → db bb = none) →
        (∀ bb, W < width bb → db bb = some cols) →
        0 < width b → width b * width b < cutoff →
        query_columns db b = some cols) := by
  refine ⟨width_expand, query_columns_loop_stable, ?_, ?_⟩
  · intro db W cols n b fuel hW0 hWc hnone hsome hw hwc hWn hf
    exact query_columns_loop_success db W cols hW0 hWc hnone hsome n b fuel hw hwc hWn hf
  · intro db W cols b hW0 hWc hnone hsome hw hwc
    have hbound := width_den_bound (width b) hw
    have hX : (0 : ℚ) < width b * 8 ^ ((width b).den + 9) := by positivity
    have h8W : 8 * W < width b * 8 ^ ((width b).den + 9) := by
      by_contra hcon
      push_neg at hcon
      have hsq : (width b * 8 ^ ((width b).den + 9)) * (width b * 8 ^ ((width b).den + 9))
          <= (8 * W) * (8 * W) :=
        mul_le_mul hcon hcon (le_of_lt hX) (by linarith)
      linarith
    have hWn : W < width b * 8 ^ ((width b).den + 9) := by linarith
    exact query_columns_loop_success db W cols hW0 hWc hnone hsome
      ((width b).den + 9) b (fuelFor b) hw hwc hWn (by rw [fuelFor])

/-- The concrete oracle of the C6 counterexample: a row exists exactly for
boxes wider than `4.0e7` (whose square `1.6e15` is below the cutoff
`1.61e15`). -/
def dbC6 : B4 → Option (List String) :=
  fun b => if 40000000 < width b then some ["__geometry__"] else none

/-- The concrete start box of the C6 counterexample, of width `3.9e7`. -/
def bC6 : B4 := ⟨0, 0, 39000000, 1⟩

/-- C6 counterexample: rows exist for every box wider than `W = 4.0e7`
(and `W² < 1.61e15`, so probes at such widths are legal), the start box has
positive width `3.9e7` below `W`, yet `query_columns` returns `None`: the
first probe (width `3.9e7 ≤ W`) finds no row, the expansion jumps the width
to `3.12e8`, and the guard `(3.12e8)² < 1.61e15` fails before any probe
beyond `W` happens — the loop stops without ever seeing a row. -/
theorem C6_counterexample :
    (∀ bb : B4, 40000000 < width bb → dbC6 bb = some ["__geometry__"])
    ∧ (0 : ℚ) < width bC6
    ∧ width bC6 <= 40000000
    ∧ (40000000 : ℚ) * 40000000 < cutoff
    ∧ query_columns dbC6 bC6 = none := by
  have hwidth : width bC6 = 39000000 := by
    show |(39000000 : ℚ) - 0| = 39000000
    norm_num
  refine ⟨?_, ?_, ?_, ?_, ?_⟩
  · intro bb h
    rw [dbC6]
    rw [if_pos h]
  · rw [hwidth]
    norm_num
  · rw [hwidth]
    norm_num
  · norm_num [cutoff]
  · have hfuel : fuelFor bC6 = 11 := by
      rw [fuelFor, hwidth]
      norm_num
    rw [query_columns, hfuel, show (11 : ℕ) = 10 + 1 from rfl, query_columns_loop]
    rw [if_pos (by rw [hwidth]; norm_num [cutoff])]
    rw [show dbC6 bC6 = none from by rw [dbC6, if_neg (by rw [hwidth]; norm_num)]]
    have hwex : width (expand bC6) = 312000000 := by
      rw [width_expand, hwidth]
      norm_num
    rw [show (10 : ℕ) = 9 + 1 from rfl, query_columns_loop]
    rw [if_neg (by rw [hwex]; norm_num [cutoff])]

/-- Witness for the amended C6: rows beyond width 100 from a unit box. -/
theorem C6_amended_probe_bound_witness :
    query_columns
      (fun bb => if 100 < width bb then some ["__geometry__"] else none)
      ⟨0, 0, 1, 1⟩ = some ["__geometry__"] := by
  refine (C6_amended_probe_bound).2.2.2
    (fun bb => if 100 < width bb then some ["__geometry__"] else none)
    100 ["__geometry__"] ⟨0, 0, 1, 1⟩ (by norm_num) (by norm_num [cutoff])
    ?_ ?_ ?_ ?_
  · intro bb h
    show (if 100 < width bb then some ["__geometry__"] else none) = none
    rw [if_neg (not_lt.mpr h)]
  · intro bb h
    show (if 100 < width bb then some ["__geometry__"] else none) = some ["__geometry__"]
    rw [if_pos h]
  · show (0 : ℚ) < |(1 : ℚ) - 0|
    norm_num
  · show |(1 : ℚ) - 0| * |(1 : ℚ) - 0| < cutoff
    norm_num [cutoff]

/-- C7: when the probe loop reaches the planetary cutoff without any probe
returning a row, `query_columns` does not raise: every path of the loop
body returns or falls through, and the function implicitly returns `None`
(the positive-width hypothesis records that the Python loop actually
reaches the cutoff instead of spinning on a degenerate zero-width box). -/
theorem C7_query_columns_exhausted (db : B4 → Option (List String)) (b : B4)
    (hw : 0 < width b) (hnone : ∀ bb, db bb = none) :
    query_columns db b = none := by
  rw [query_columns]
  generalize fuelFor b = fuel
  induction fuel generalizing b with
  | zero => rfl
  | succ f ih =>
    rw [query_columns_loop]
    by_cases hg : width b * width b < cutoff
    · rw [if_pos hg, hnone b]
      exact ih (expand b) (by rw [width_expand]; linarith)
    · rw [if_neg hg]

/-- Witness for C7: an everywhere-empty table from a unit box. -/
theorem C7_query_columns_exhausted_witness :
    query_columns (fun _ => none) ⟨0, 0, 1, 1⟩ = none := by
  refine C7_query_columns_exhausted (fun _ => none) ⟨0, 0, 1, 1⟩ ?_ (fun _ => rfl)
  show (0 : ℚ) < |(1 : ℚ) - 0|
  norm_num

/-! ## Multi-layer composition

Embedding of `MultiResponse.save` (server.py 336-366) and
`MultiResponse.get_tiles` (368-387).  The host framework's `getTile` is the
oracle `gt`; a parsed sub-tile body is represented by its declared `type`
attribute, the only part of the body the core inspects before handing the
tiles to a merge routine.  Each `save` result carries the list of external
data fetches that were executed (`getTile`d layer names for the JSON
family, feature-query strings for the binary family), so that "fails
before any query executes" is statable. -/

/-- A configured sub-layer: its `layer.name()` and its provider's
`renderTile` outcome per coordinate (dimensions and SRS folded in). -/
structure LayerM where
  lname : String
  render : Coord → Except String RenderResult

/-- The host configuration's layer registry (`config.layers`). -/
structure ConfigM where
  layers : List (String × LayerM)

def ConfigM.find (cfgm : ConfigM) (name : String) : Option LayerM :=
  (cfgm.layers.find? (fun kv => kv.1 == name)).map Prod.snd

/-- One `{'name': ..., 'features': ...}` entry of a binary-format merge. -/
structure FeatureLayer (V : Type) where
  name : String
  features : List (Feature V)
deriving DecidableEq

/-- One dispatched call to an external merge routine and its arguments
(the pass-through `config` argument of the JSON family is omitted). -/
inductive MergeCall (V : Type) where
  | topojson : List String → List String → Coord → MergeCall V
  | geojson : List String → List String → Coord → MergeCall V
  | oscimap : List (FeatureLayer V) → Coord → MergeCall V
  | mapbox : List (FeatureLayer V) → Coord → MergeCall V
deriving DecidableEq

/-- The feature-layer list of a binary-format merge call. -/
def mergeLayers {V : Type} : MergeCall V → Option (List (FeatureLayer V))
  | .oscimap fls _ => some fls
  | .mapbox fls _ => some fls
  | _ => none

/-- The module `__name__` appearing in `KnownUnknown` messages. -/
def moduleName : String := "TileStache.Goodies.VecTiles.server"

/-- Python `', '.join(l)`. -/
def joinComma : List String → String
  | [] => ""
  | x :: xs => xs.foldl (fun a y => a ++ ", " ++ y) x

/-- Embedding of `MultiResponse.get_tiles` (server.py 368-387): the
unknown-layer check happens first, before any `getTile` call; then all
sub-tiles are fetched, mimes checked, bodies parsed and their types
checked.  First result component: the layer names that were `getTile`d. -/
def get_tiles (cfgm : ConfigM) (names : List String)
    (gt : String → String × String) (format : String) :
    List String × Except String (List String) :=
  let unknown := (names.filter (fun n => (cfgm.find n).isNone)).dedup
  if unknown ≠ [] then
    ([], .error (moduleName ++ ".get_tiles didn't recognize " ++
      joinComma unknown ++ " when trying to load " ++ joinComma names ++ "."))
  else
    let results := names.map gt
    let bad_mimes := (results.zip names).filter
      (fun rm => ¬ rm.1.1.endsWith "/json")
    match bad_mimes with
    | rm :: _ => (names, .error (moduleName ++
        ".get_tiles encountered a non-JSON mime-type in " ++ rm.2 ++
        " sub-layer: " ++ rm.1.1))
    | [] =>
      let expected := if format.toLower == "json" then "FeatureCollection"
        else "Topology"
      let tiles := results.map Prod.snd
      let bad_types := (tiles.zip names).filter (fun tn => tn.1 ≠ expected)
      match bad_types with
      | tn :: _ => (names, .error (moduleName ++ ".get_tiles encountered a non-" ++
          (if format.toLower == "json" then "Feature" else "Topology") ++
          "Collection type in " ++ tn.2 ++ " sub-layer: " ++ tn.1))
      | [] => (names, .ok tiles)

/-- The comprehension `[self.config.layers[name] for name in self.names]`
(server.py 347/357): left to right, raising `KeyError` at the first
unknown name, before any sub-layer is rendered or queried. -/
def lookupLayers (cfgm : ConfigM) : List String → Except String (List LayerM)
  | [] => .ok []
  | n :: rest =>
    match cfgm.find n with
    | none => .error ("KeyError: " ++ n)
    | some l =>
      match lookupLayers cfgm rest with
      | .error e => .error e
      | .ok ls => .ok (l :: ls)

/-- The per-layer loop of the binary-format branches (server.py 348-352 /
358-362): render each sub-layer, `continue` past `EmptyResponse` instances,
fetch the features of the remaining layers from the format's query and
collect the `{'name': layer.name(), 'features': ...}` entries.  First
result component: the executed feature-query strings. -/
def binaryLoop {V : Type} (db : String → List (Row V)) (coord : Coord)
    (format : String) :
    List LayerM → List String × Except String (List (FeatureLayer V))
  | [] => ([], .ok [])
  | l :: rest =>
    match l.render coord with
    | .error e => ([], .error e)
    | .ok (.empty _) => binaryLoop db coord format rest
    | .ok (.resp r) =>
      match r.query format with
      | none => ([], .error ("KeyError: " ++ format))
      | some q =>
        match get_features (db q) with
        | .error e => ([q], .error e)
        | .ok fs =>
          match binaryLoop db coord format rest with
          | (evs, .error e) => (q :: evs, .error e)
          | (evs, .ok fls) => (q :: evs, .ok (⟨l.lname, fs⟩ :: fls))

/-- Embedding of `MultiResponse.save` (server.py 336-366). -/
def multiSave {V : Type} (cfgm : ConfigM) (names : List String) (coord : Coord)
    (db : String → List (Row V)) (gt : String → String → String × String)
    (format : String) : List String × Except String (MergeCall V) :=
  if format = "TopoJSON" then
    match get_tiles cfgm names (fun n => gt n format.toLower) format with
    | (evs, .error e) => (evs, .error e)
    | (evs, .ok tiles) => (evs, .ok (.topojson names tiles coord))
  else if format = "JSON" then
    match get_tiles cfgm names (fun n => gt n format.toLower) format with
    | (evs, .error e) => (evs, .error e)
    | (evs, .ok tiles) => (evs, .ok (.geojson names tiles coord))
  else if format = "OpenScienceMap" then
    match lookupLayers cfgm names with
    | .error e => ([], .error e)
    | .ok layers =>
      match binaryLoop db coord "OpenScienceMap" layers with
      | (evs, .error e) => (evs, .error e)
      | (evs, .ok fls) => (evs, .ok (.oscimap fls coord))
  else if format = "Mapbox" then
    match lookupLayers cfgm names with
    | .error e => ([], .error e)
    | .ok layers =>
      match binaryLoop db coord "Mapbox" layers with
      | (evs, .error e) => (evs, .error e)
      | (evs, .ok fls) => (evs, .ok (.mapbox fls coord))
  else ([], .error ("ValueError: " ++ format ++
    " is not supported for responses with multiple layers"))

/-- The error names `c`: `c` occurs in the message as a substring. -/
def containsName (e c : String) : Prop := c.data <:+: e.data

theorem foldl_join_prefix : ∀ (us : List String) (acc : String),
    acc.data <+: (us.foldl (fun a y => a ++ ", " ++ y) acc).data := by
  intro us
  induction us with
  | nil => intro acc; exact List.prefix_rfl
  | cons u us ih =>
    intro acc
    refine List.IsPrefix.trans ?_ (ih (acc ++ ", " ++ u))
    rw [strData_append, strData_append]
    exact (List.prefix_append acc.data (", " : String).data).trans
      (List.prefix_append (acc.data ++ (", " : String).data) u.data)

theorem joinComma_head_prefix (u : String) (us : List String) :
    u.data <+: (joinComma (u :: us)).data :=
  foldl_join_prefix us u

/-- When a requested name is unknown, `get_tiles` fails before any
`getTile` call, with a message naming an unknown layer. -/
theorem get_tiles_unknown (cfgm : ConfigM) (names : List String)
    (gt : String → String × String) (format : String)
    (hunk : ∃ c ∈ names, cfgm.find c = none) :
    ∃ e, get_tiles cfgm names gt format = ([], .error e)
      ∧ ∃ c ∈ names, cfgm.find c = none ∧ containsName e c := by
  obtain ⟨c0, hc0, hf0⟩ := hunk
  have hcf : c0 ∈ (names.filter (fun n => (cfgm.find n).isNone)).dedup := by
    rw [List.mem_dedup, List.mem_filter]
    exact ⟨hc0, by rw [hf0]; rfl⟩
  have hne : (names.filter (fun n => (cfgm.find n).isNone)).dedup ≠ [] :=
    List.ne_nil_of_mem hcf
  obtain ⟨u, us, hus⟩ := List.exists_cons_of_ne_nil hne
  have hu : u ∈ (names.filter (fun n => (cfgm.find n).isNone)).dedup := by
    rw [hus]
    exact List.mem_cons_self u us
  have humem := List.mem_filter.mp (List.mem_dedup.mp hu)
  refine ⟨moduleName ++ ".get_tiles didn't recognize " ++
      joinComma ((names.filter (fun n => (cfgm.find n).isNone)).dedup) ++
      " when trying to load " ++ joinComma names ++ ".", ?_, u, humem.1,
      Option.isNone_iff_eq_none.mp humem.2, ?_⟩
  · rw [get_tiles.eq_def]
    simp only [if_pos hne]
  · have hpre : u.data
        <+: (joinComma ((names.filter (fun n => (cfgm.find n).isNone)).dedup)).data := by
      rw [hus]
      exact joinComma_head_prefix u us
    refine hpre.isInfix.trans ?_
    refine ⟨(moduleName ++ ".get_tiles didn't recognize ").data,
      (" when trying to load " ++ joinComma names ++ ".").data, ?_⟩
    simp only [containsName, strData_append, List.append_assoc]

/-- The layer-list comprehension raises `KeyError` at the first unknown
name when one exists. -/
theorem lookupLayers_error (cfgm : ConfigM) :
    ∀ names : List String, (∃ c ∈ names, cfgm.find c = none) →
      ∃ c ∈ names, cfgm.find c = none
        ∧ lookupLayers cfgm names = .error ("KeyError: " ++ c) := by
  intro names
  induction names with
  | nil =>
    rintro ⟨c, hc, -⟩
    exact absurd hc (List.not_mem_nil c)
  | cons n rest ih =>
    rintro ⟨c, hc, hfind⟩
    by_cases hn : cfgm.find n = none
    · exact ⟨n, List.mem_cons_self n rest, hn, by simp only [lookupLayers, hn]⟩
    · have hcrest : c ∈ rest := by
        rcases List.mem_cons.mp hc with rfl | h
        · exact absurd hfind hn
        · exact h
      obtain ⟨c2, hc2, hf2, herr⟩ := ih ⟨c, hcrest, hfind⟩
      obtain ⟨l, hl⟩ := Option.ne_none_iff_exists'.mp hn
      exact ⟨c2, List.mem_cons_of_mem n hc2, hf2,
        by simp only [lookupLayers, hl, herr]⟩

/-- Definitional dispatch of `multiSave` at each format literal. -/
theorem multiSave_json {V : Type} (cfgm : ConfigM) (names : List String)
    (coord : Coord) (db : String → List (Row V))
    (gt : String → String → String × String) :
    multiSave cfgm names coord db gt "JSON"
      = (match get_tiles cfgm names (fun n => gt n ("JSON".toLower)) "JSON" with
        | (evs, Except.error e) => (evs, (Except.error e : Except String (MergeCall V)))
        | (evs, Except.ok tiles) => (evs, Except.ok (MergeCall.geojson names tiles coord))) := rfl

theorem multiSave_topojson {V : Type} (cfgm : ConfigM) (names : List String)
    (coord : Coord) (db : String → List (Row V))
    (gt : String → String → String × String) :
    multiSave cfgm names coord db gt "TopoJSON"
      = (match get_tiles cfgm names (fun n => gt n ("TopoJSON".toLower)) "TopoJSON" with
        | (evs, Except.error e) => (evs, (Except.error e : Except String (MergeCall V)))
        | (evs, Except.ok tiles) => (evs, Except.ok (MergeCall.topojson names tiles coord))) := rfl

theorem multiSave_oscimap {V : Type} (cfgm : ConfigM) (names : List String)
    (coord : Coord) (db : String → List (Row V))
    (gt : String → String → String × String) :
    multiSave cfgm names coord db gt "OpenScienceMap"
      = (match lookupLayers cfgm names with
        | Except.error e => (([] : List String), (Except.error e : Except String (MergeCall V)))
        | Except.ok layers =>
          match binaryLoop db coord "OpenScienceMap" layers with
          | (evs, Except.error e) => (evs, Except.error e)
          | (evs, Except.ok fls) => (evs, Except.ok (MergeCall.oscimap fls coord))) := rfl

theorem multiSave_mapbox {V : Type} (cfgm : ConfigM) (names : List String)
    (coord : Coord) (db : String → List (Row V))
    (gt : String → String → String × String) :
    multiSave cfgm names coord db gt "Mapbox"
      = (match lookupLayers cfgm names with
        | Except.error e => (([] : List String), (Except.error e : Except String (MergeCall V)))
        | Except.ok layers =>
          match binaryLoop db coord "Mapbox" layers with
          | (evs, Except.error e) => (evs, Except.error e)
          | (evs, Except.ok fls) => (evs, Except.ok (MergeCall.mapbox fls coord))) := rfl

/-- C8: a multi-layer request whose name set contains a layer absent from
the registry fails, in every format family, before any query or sub-tile
fetch executes (the event list is empty), with an error naming an unknown
layer. -/
theorem C8_unknown_layer_fails_fast {V : Type} (cfgm : ConfigM)
    (names : List String) (coord : Coord) (db : String → List (Row V))
    (gt : String → String → String × String) (format : String)
    (hf : format ∈ (["JSON", "TopoJSON", "OpenScienceMap", "Mapbox"] : List String))
    (hunk : ∃ c ∈ names, cfgm.find c = none) :
    ∃ e, multiSave cfgm names coord db gt format = ([], .error e)
      ∧ ∃ c ∈ names, cfgm.find c = none ∧ containsName e c := by
  fin_cases hf
  · obtain ⟨e, hgt, hname⟩ := get_tiles_unknown cfgm names
      (fun n => gt n ("JSON".toLower)) "JSON" hunk
    refine ⟨e, ?_, hname⟩
    rw [multiSave_json, hgt]
  · obtain ⟨e, hgt, hname⟩ := get_tiles_unknown cfgm names
      (fun n => gt n ("TopoJSON".toLower)) "TopoJSON" hunk
    refine ⟨e, ?_, hname⟩
    rw [multiSave_topojson, hgt]
  · obtain ⟨c2, hc2, hf2, herr⟩ := lookupLayers_error cfgm names hunk
    refine ⟨"KeyError: " ++ c2, ?_, c2, hc2, hf2, ?_⟩
    · rw [multiSave_oscimap, herr]
    · show c2.data <:+: ("KeyError: " ++ c2).data
      rw [strData_append]
      exact (List.suffix_append ("KeyError: " : String).data c2.data).isInfix
  · obtain ⟨c2, hc2, hf2, herr⟩ := lookupLayers_error cfgm names hunk
    refine ⟨"KeyError: " ++ c2, ?_, c2, hc2, hf2, ?_⟩
    · rw [multiSave_mapbox, herr]
    · show c2.data <:+: ("KeyError: " ++ c2).data
      rw [strData_append]
      exact (List.suffix_append ("KeyError: " : String).data c2.data).isInfix

/-- C9: in a binary tile-native multi-layer compose, a sub-layer rendering
to `EmptyResponse` is skipped: composing `["a", "b"]` where `"a"` renders a
response with features and `"b"` renders empty invokes the merge routine
with exactly one feature-layer entry, carrying layer `"a"`'s name and
features, and only `"a"`'s feature query executes. -/
theorem C9_empty_sublayer_omitted {V : Type} (cfgm : ConfigM) (coord : Coord)
    (db : String → List (Row V)) (gt : String → String → String × String)
    (format : String) (la lb : LayerM) (r : ResponseModel) (bnds : B4)
    (q : String) (fs : List (Feature V))
    (hfmt : format = "OpenScienceMap" ∨ format = "Mapbox")
    (ha : cfgm.find "a" = some la) (hb : cfgm.find "b" = some lb)
    (hra : la.render coord = .ok (.resp r))
    (hrb : lb.render coord = .ok (.empty bnds))
    (hq : r.query format = some q)
    (hgf : get_features (db q) = .ok fs) :
    ∃ mc, multiSave cfgm ["a", "b"] coord db gt format = ([q], .ok mc)
      ∧ mergeLayers mc = some [⟨la.lname, fs⟩] := by
  have hlk : lookupLayers cfgm ["a", "b"] = .ok [la, lb] := by
    simp only [lookupLayers, ha, hb]
  rcases hfmt with rfl | rfl
  · have hloop : binaryLoop db coord "OpenScienceMap" [la, lb]
        = ([q], .ok [⟨la.lname, fs⟩]) := by
      simp only [binaryLoop, hra, hrb, hq, hgf]
    refine ⟨.oscimap [⟨la.lname, fs⟩] coord, ?_, rfl⟩
    rw [multiSave_oscimap]
    simp only [hlk, hloop]
  · have hloop : binaryLoop db coord "Mapbox" [la, lb]
        = ([q], .ok [⟨la.lname, fs⟩]) := by
      simp only [binaryLoop, hra, hrb, hq, hgf]
    refine ⟨.mapbox [⟨la.lname, fs⟩] coord, ?_, rfl⟩
    rw [multiSave_mapbox]
    simp only [hlk, hloop]

/-- Concrete instances for the multi-layer witnesses. -/
def rW : ResponseModel :=
  { bounds := ⟨0, 0, 1, 1⟩, zoom := 1, clip := true, coord := ⟨1, 0, 0⟩,
    layer_name := "a", tolerance := none,
    query := fun f =>
      if f = "OpenScienceMap" ∨ f = "Mapbox" then some "QA" else none }

def laW : LayerM := ⟨"a", fun _ => .ok (.resp rW)⟩

def lbW : LayerM := ⟨"b", fun _ => .ok (.empty ⟨0, 0, 1, 1⟩)⟩

def cfgW : ConfigM := ⟨[("a", laW), ("b", lbW)]⟩

def dbW : String → List (Row String) := fun _ => [⟨[("__geometry__", some "g")]⟩]

def gtW : String → String → String × String :=
  fun _ _ => ("application/json", "Topology")

/-- Witness for C8: unknown layer "c" in an OpenScienceMap compose. -/
theorem C8_unknown_layer_fails_fast_witness :
    ∃ e, multiSave cfgW ["a", "c"] ⟨1, 0, 0⟩ dbW gtW "OpenScienceMap"
        = ([], .error e)
      ∧ ∃ c ∈ (["a", "c"] : List String), cfgW.find c = none ∧ containsName e c :=
  C8_unknown_layer_fails_fast cfgW ["a", "c"] ⟨1, 0, 0⟩ dbW gtW "OpenScienceMap"
    (by decide) ⟨"c", by decide, rfl⟩

/-- Witness for C9 at the concrete registry: "a" has one feature, "b" is
empty, and the merge receives exactly the entry for "a". -/
theorem C9_empty_sublayer_omitted_witness :
    ∃ mc, multiSave cfgW ["a", "b"] ⟨1, 0, 0⟩ dbW gtW "OpenScienceMap"
        = (["QA"], .ok mc)
      ∧ mergeLayers mc = some [⟨"a", [Feature.short "g" []]⟩] :=
  C9_empty_sublayer_omitted cfgW ⟨1, 0, 0⟩ dbW gtW "OpenScienceMap" laW lbW rW
    ⟨0, 0, 1, 1⟩ "QA" [Feature.short "g" []] (Or.inl rfl) rfl rfl rfl rfl rfl rfl

end VecTilesVerif
